import Mathlib

/-!
Verification development for the velovision camera capture and scheduling
core (`src/streaming.py`, `src/triggers.py`, `src/routers/api.py`).

The Python data structures and operations are shallowly embedded as
executable Lean definitions: dictionaries become association lists over
`String` keys, JPEG byte strings become `List Nat`, wall-clock timestamps
become `Nat`, and the per-camera background thread's loop body becomes an
explicit step function on a loop-state record.
-/

/-- JPEG byte strings (`bytes` in Python) are modelled as lists of bytes. -/
abbrev Bytes := List Nat

/-- A camera source descriptor as passed to `Camera.__init__`
(`streaming.py` line 14): either an integer device index or a string
(numeric device index, RTSP/ONVIF URI, ...). -/
inductive PySource where
  | int (n : Int)
  | str (s : String)
deriving DecidableEq

/-- Python `str.isdigit()` (`streaming.py` line 16), restricted to ASCII:
true exactly when the string is nonempty and every character is a
decimal digit `0`-`9`. -/
def pyIsDigit (s : String) : Bool :=
  !s.data.isEmpty && s.data.all (fun c => 48 ≤ c.toNat && c.toNat ≤ 57)

/-- Python `int(...)` applied to an all-digit decimal string
(`streaming.py` line 17). -/
def pyIntOfDigits (s : String) : Nat :=
  s.data.foldl (fun a c => a * 10 + (c.toNat - 48)) 0

/-- The source coercion performed at the top of `Camera.__init__`
(`streaming.py` lines 15-17): a string consisting only of digits is
converted to the corresponding integer device index; every other
descriptor is kept as is. -/
def coerceSource : PySource → PySource
  | .str s => if pyIsDigit s then .int (pyIntOfDigits s) else .str s
  | src => src

/-- The state of one `Camera` object (`streaming.py` lines 13-33), minus
the OS-level `cv2.VideoCapture` handle and the thread object.
`last_update_time` is the only timestamp field the class has. -/
structure Camera where
  source : PySource
  name : String
  last_encoded_frame : Option Bytes
  running : Bool
  error_count : Nat
  max_errors : Nat
  last_update_time : Nat
deriving DecidableEq

/-- `Camera.__init__` (`streaming.py` lines 14-33): coerce the source,
initialise the frame cache to `None`, set `running = True`,
`error_count = 0`, `max_errors = 50`, `last_update_time = 0`. -/
def mkCamera (source : PySource) (name : String) : Camera :=
  { source := coerceSource source
    name := name
    last_encoded_frame := none
    running := true
    error_count := 0
    max_errors := 50
    last_update_time := 0 }

/-- `Camera.stop` (`streaming.py` lines 38-41): set the running flag to
false (and release the capture handle, which touches none of the
modelled fields). -/
def Camera.stop (c : Camera) : Camera :=
  { c with running := false }

/-- `Camera.get_frame` (`streaming.py` lines 115-117): under the lock,
read and return `last_encoded_frame`. The method writes no field, so the
post-state is the input state unchanged. -/
def Camera.get_frame (c : Camera) : Option Bytes × Camera :=
  (c.last_encoded_frame, c)

/-- The frame-store step of the capture worker (`streaming.py`
lines 93-101): on a successful retrieve the worker resets `error_count`,
encodes the frame, and under the lock stores the JPEG bytes and stamps
`last_update_time` with the current wall-clock time. -/
def Camera.store_frame (now : Nat) (jpeg : Bytes) (c : Camera) : Camera :=
  { c with
    last_encoded_frame := some jpeg
    last_update_time := now
    error_count := 0 }

/-- Lookup in a Python-dict-modelling association list
(`self.cameras.get(camera_id)` and `camera_id in self.cameras`). -/
def lookupId {β : Type} (k : String) : List (String × β) → Option β
  | [] => none
  | e :: rest => if e.1 = k then some e.2 else lookupId k rest

/-- Dict assignment `d[k] = v`: replace the value at an existing key in
place, else append a new entry. -/
def insertId {β : Type} (k : String) (v : β) : List (String × β) → List (String × β)
  | [] => [(k, v)]
  | e :: rest => if e.1 = k then (k, v) :: rest else e :: insertId k v rest

/-- Dict deletion `del d[k]`: drop the entry with key `k` (a dict holds at
most one, so filtering all matches agrees with deleting the single one). -/
def eraseId {β : Type} (k : String) (l : List (String × β)) : List (String × β) :=
  l.filter (fun e => decide (e.1 ≠ k))

/-- `CameraManager` (`streaming.py` lines 138-140): a dict from camera id
to its live `Camera` handle. -/
structure CameraManager where
  cameras : List (String × Camera)
deriving DecidableEq

/-- `CameraManager.get_camera` (`streaming.py` lines 142-143). -/
def CameraManager.get_camera (m : CameraManager) (camera_id : String) : Option Camera :=
  lookupId camera_id m.cameras

/-- `CameraManager.add_camera` (`streaming.py` lines 145-154): if the id
is present, `stop()` is first called on the old handle (the stopped
handle then leaves the map when the slot is overwritten); a fresh
`Camera` is constructed and assigned to the slot, and returned. -/
def CameraManager.add_camera (m : CameraManager) (camera_id : String)
    (source : PySource) (name : Option String) : CameraManager × Camera :=
  let cam := mkCamera source (name.getD camera_id)
  ({ cameras := insertId camera_id cam m.cameras }, cam)

/-- `CameraManager.remove_camera` (`streaming.py` lines 156-164): when
the id is present, `stop()` the handle, delete the entry and return
`True`; otherwise return `False` and leave the map untouched. -/
def CameraManager.remove_camera (m : CameraManager) (camera_id : String) :
    CameraManager × Bool :=
  match lookupId camera_id m.cameras with
  | some _ => ({ cameras := eraseId camera_id m.cameras }, true)
  | none => (m, false)

/-- Ghost-instrumented registry state used to reason about handle
liveness across `add_camera`/`remove_camera` calls: `discarded` records
every handle that has been stopped and dropped from the map, tagged with
the id it was registered under. -/
structure TraceState where
  mgr : CameraManager
  discarded : List (String × Camera)
deriving DecidableEq

/-- One `add_camera(id, source, name)` call (`streaming.py`
lines 145-154) at the trace level: the old handle for `id`, when present,
is stopped and moves to the ghost `discarded` list; the map slot then
receives the freshly constructed camera. -/
def addCameraStep (s : TraceState) (id : String) (src : PySource)
    (nm : Option String) : TraceState :=
  match lookupId id s.mgr.cameras with
  | some old =>
    { mgr := (s.mgr.add_camera id src nm).1
      discarded := (id, Camera.stop old) :: s.discarded }
  | none =>
    { mgr := (s.mgr.add_camera id src nm).1
      discarded := s.discarded }

/-- One `remove_camera(id)` call (`streaming.py` lines 156-164) at the
trace level, returning the method's boolean result. -/
def removeCameraStep (s : TraceState) (id : String) : TraceState × Bool :=
  match lookupId id s.mgr.cameras with
  | some old =>
    ({ mgr := (s.mgr.remove_camera id).1
       discarded := (id, Camera.stop old) :: s.discarded },
     (s.mgr.remove_camera id).2)
  | none => (s, false)

/-- One recorded `add_camera` call: id, source, optional display name. -/
structure AddCall where
  id : String
  src : PySource
  nm : Option String

/-- Run a sequence of `add_camera` calls against the empty registry. -/
def runAdds (calls : List AddCall) : TraceState :=
  calls.foldl (fun s c => addCameraStep s c.id c.src c.nm) ⟨⟨[]⟩, []⟩

/-- Number of handles registered (or ever discarded) under `id` whose
worker flag `running` is still true. -/
def liveFor (id : String) : List (String × Camera) → Nat
  | [] => 0
  | e :: rest => (if e.1 = id ∧ e.2.running = true then 1 else 0) + liveFor id rest

/-- Live handles for `id` across the whole history: entries currently in
the registry map plus all discarded ones. -/
def liveCount (id : String) (s : TraceState) : Nat :=
  liveFor id s.mgr.cameras + liveFor id s.discarded

/-- The keys of the registry map. -/
def keysOf {β : Type} (l : List (String × β)) : List String :=
  l.map Prod.fst

/-- Iterate a step function `n` times. -/
def iterN {α : Type} (f : α → α) : Nat → α → α
  | 0, x => x
  | n + 1, x => f (iterN f n x)

/-- Instrumented state of the `Camera._update` worker loop while its
source fails every open attempt (`streaming.py` lines 43-80):
the running flag, the consecutive-error counter, and a ghost count of
`cv2.VideoCapture` open attempts issued so far. -/
structure FailLoopState where
  running : Bool
  error_count : Nat
  open_attempts : Nat
deriving DecidableEq

/-- One iteration of the `while self.running` body of `Camera._update`
(`streaming.py` lines 45-80) for a source that fails every open attempt:
the capture handle is never opened, so each iteration takes the
connection branch, increments `error_count` (line 54), and then either
breaks with `running = False` when the counter exceeds the budget
(lines 56-59) or issues one more failing open attempt (lines 61-78) and
continues. A non-running state is left unchanged (the loop has exited). -/
def failOpenStep (max_errors : Nat) (s : FailLoopState) : FailLoopState :=
  if s.running then
    let ec := s.error_count + 1
    if ec > max_errors then
      { s with error_count := ec, running := false }
    else
      { s with error_count := ec, open_attempts := s.open_attempts + 1 }
  else s

/-- Instrumented state of the `generate_frames` MJPEG generator loop
(`streaming.py` lines 119-135) against a camera whose `get_frame` returns
`None` on every call: whether the loop has broken, the consecutive
empty-frame counter, a ghost count of polls (`get_frame` calls), and a
ghost count of frame chunks yielded. -/
structure StreamLoopState where
  stopped : Bool
  empty_count : Nat
  polls : Nat
  yields : Nat
deriving DecidableEq

/-- One iteration of the `while True` body of `generate_frames`
(`streaming.py` lines 123-135) when every poll returns `None`: the frame
branch is never taken, so each iteration polls once, increments
`empty_count`, and breaks once the counter exceeds `max_empty = 600`
(lines 121, 131-134). A stopped state is left unchanged. -/
def streamEmptyStep (s : StreamLoopState) : StreamLoopState :=
  if s.stopped then s
  else
    let ec := s.empty_count + 1
    if ec > 600 then
      { s with polls := s.polls + 1, empty_count := ec, stopped := true }
    else
      { s with polls := s.polls + 1, empty_count := ec }

/-- The outcome of a FastAPI handler: a body with a media type, or an
`HTTPException` with a status code and detail string. -/
inductive HttpResp where
  | ok (body : Bytes) (media_type : String)
  | httpError (status : Nat) (detail : String)
deriving DecidableEq

/-- The `/snapshot` endpoint (`routers/api.py` lines 49-60): 404 when the
camera id is unknown, 503 when `get_frame()` returns a falsy value
(`None` or empty bytes), else the JPEG bytes. -/
def get_snapshot (m : CameraManager) (camera_id : String) : HttpResp :=
  match m.get_camera camera_id with
  | none => .httpError 404 "Camera not found"
  | some cam =>
    match (cam.get_frame).1 with
    | none => .httpError 503 "Frame capture failed"
    | some frame =>
      if frame = [] then .httpError 503 "Frame capture failed"
      else .ok frame "image/jpeg"

/-- An APScheduler trigger as installed by `sync_schedules`
(`triggers.py` lines 58-104): a fixed interval (hours, minutes) or a
cron trigger (optional day-of-week list, hour, minute). -/
inductive Trigger where
  | interval (hours minutes : Int)
  | cron (day_of_week : Option String) (hour minute : Int)
deriving DecidableEq

/-- The scheduler's job table: job id to trigger. -/
abbrev JobTable := List (String × Trigger)

/-- `scheduler.get_job(job_id)`. -/
def getJob (t : JobTable) (job_id : String) : Option Trigger :=
  lookupId job_id t

/-- `scheduler.remove_job(job_id)` guarded by `get_job` (removal only
happens when the id is present; filtering is a no-op otherwise). -/
def removeJob (t : JobTable) (job_id : String) : JobTable :=
  t.filter (fun e => decide (e.1 ≠ job_id))

/-- `scheduler.add_job(..., id=job_id)`: append the entry (every call
site removes an existing entry with the same id first). -/
def addJob (t : JobTable) (job_id : String) (tr : Trigger) : JobTable :=
  t ++ [(job_id, tr)]

/-- The schedule-bearing keys of one configuration dict as consumed by
`sync_schedules._add_schedule_job` (`triggers.py` lines 45-104); `none`
models an absent dict key. -/
structure SchedCfg where
  schedule_enabled : Bool := false
  schedule_type : Option String := none
  schedule_time : Option String := none
  schedule_days : List String := []
  schedule_interval_hrs : Option Int := none
  schedule_interval_mins : Option Int := none
deriving DecidableEq

/-- Parse `"HH:MM"` as done at `triggers.py` lines 62-66 and 82-86:
split on `:`, require at least two parts, convert the first two with
Python `int(...)` (a failure is caught and installs no job). -/
def parseHM (time_str : String) : Option (Int × Int) :=
  match time_str.splitOn ":" with
  | p0 :: p1 :: _ =>
    match p0.toInt?, p1.toInt? with
    | some h, some m => some (h, m)
    | _, _ => none
  | _ => none

/-- Python truthiness of `config_item.get("schedule_interval_hrs")`:
an absent key and the value `0` are falsy. -/
def intTruthy : Option Int → Bool
  | none => false
  | some v => v != 0

/-- `sync_schedules._add_schedule_job` (`triggers.py` lines 45-107):
when the subject's schedule is disabled, remove its job if present;
otherwise remove any existing job with this id and install one matching
the configured kind — `daily` and `weekly` become cron triggers (an
unparsable time or an empty weekly day list installs nothing), and
everything else is treated as `interval`, where hours and minutes both
zero (or absent) fall back to one hour (lines 99-101). -/
def addScheduleJob (table : JobTable) (job_id : String) (item : SchedCfg) : JobTable :=
  if !item.schedule_enabled then
    removeJob table job_id
  else
    let sched_type := item.schedule_type.getD "interval"
    let table := removeJob table job_id
    if sched_type = "daily" then
      let time_str := item.schedule_time.getD "08:00"
      match parseHM time_str with
      | some (h, m) => addJob table job_id (.cron none h m)
      | none => table
    else if sched_type = "weekly" then
      let time_str := item.schedule_time.getD "08:00"
      let days := item.schedule_days
      if days.isEmpty then table
      else
        match parseHM time_str with
        | some (h, m) =>
          addJob table job_id (.cron (some (String.intercalate "," days)) h m)
        | none => table
    else
      let hrs := item.schedule_interval_hrs.getD 0
      let mins := item.schedule_interval_mins.getD 0
      let hrs := if hrs = 0 ∧ mins = 0 then 1 else hrs
      addJob table job_id (.interval hrs mins)

/-- One camera's configuration entry (`config["cameras"][cam_id]`) as
read by `sync_schedules` (`triggers.py` lines 110-123):
`enabled` defaults to true when the key is absent. -/
structure CamCfg extends SchedCfg where
  enabled : Option Bool := none
deriving DecidableEq

/-- One utility-meter configuration entry (`config["utility_meters"]`)
as read by `sync_schedules` (lines 139-169) and `perform_meter_read`
(lines 810-871). -/
structure MeterCfg extends SchedCfg where
  id : String
  name : String := ""
  camera_id : Option String := none
  schedule_interval : Option String := none
  analysis_prompt : Option String := none
deriving DecidableEq

/-- The person-finder configuration (`config["person_finder"]`) as read
by `sync_schedules` (lines 171-187). -/
structure FinderCfg extends SchedCfg where
  names : List String := []
deriving DecidableEq

/-- The slice of the configuration tree consumed by `sync_schedules`. -/
structure Config where
  cameras : List (String × CamCfg) := []
  patrol : SchedCfg := {}
  utility_meters : List MeterCfg := []
  person_finder : FinderCfg := {}
deriving DecidableEq

/-- Python truthiness of `meter.get("camera_id")`: absent or empty. -/
def strTruthy : Option String → Bool
  | none => false
  | some s => !s.isEmpty

/-- `sync_schedules` (`triggers.py` lines 42-187) as a function from the
configuration and the current scheduler table to the new table:
1. for every camera in the configuration, install its `analysis_<id>`
   job when enabled, or remove it when disabled (lines 110-123);
2. install the global patrol job, after the backward-compatibility
   defaulting of `schedule_type` (lines 126-136);
3. for every meter in the configuration remove `meter_<id>` and, when it
   has a camera, re-install it after the legacy `schedule_interval`
   mapping (lines 139-169);
4. remove `person_finder_scheduled` and re-install it when names are set
   and the schedule is enabled (lines 172-187). -/
def syncSchedules (cfg : Config) (table : JobTable) : JobTable :=
  let table := cfg.cameras.foldl (fun table p =>
    let cam_id := p.1
    let cam_config := p.2
    if cam_config.enabled.getD true then
      addScheduleJob table ("analysis_" ++ cam_id) cam_config.toSchedCfg
    else
      removeJob table ("analysis_" ++ cam_id)) table
  let patrol_config :=
    if cfg.patrol.schedule_type = none && intTruthy cfg.patrol.schedule_interval_hrs then
      { cfg.patrol with schedule_type := some "interval" }
    else cfg.patrol
  let table := addScheduleJob table "patrol_global" patrol_config
  let table := cfg.utility_meters.foldl (fun table meter =>
    let job_id := "meter_" ++ meter.id
    let table := removeJob table job_id
    if strTruthy meter.camera_id then
      let meter_cfg :=
        if meter.schedule_type = none then
          if meter.schedule_interval = some "hourly" then
            { meter.toSchedCfg with
              schedule_type := some "interval", schedule_interval_hrs := some 1 }
          else if meter.schedule_interval = some "daily" then
            { meter.toSchedCfg with
              schedule_type := some "daily", schedule_time := some "08:00" }
          else
            { meter.toSchedCfg with
              schedule_type := some "interval", schedule_interval_hrs := some 12 }
        else meter.toSchedCfg
      addScheduleJob table job_id meter_cfg
    else table) table
  let table := removeJob table "person_finder_scheduled"
  let fc := cfg.person_finder
  if !fc.names.isEmpty && fc.schedule_enabled then
    let fc2 :=
      if fc.schedule_type = none && intTruthy fc.schedule_interval_hrs then
        { fc.toSchedCfg with schedule_type := some "interval" }
      else fc.toSchedCfg
    addScheduleJob table "person_finder_scheduled" fc2
  else table

/-- The dict returned by `perform_meter_read` (`triggers.py`
lines 810-871): a status string, an optional message, and the list of
per-meter results `(meter_id, name, result)` that were appended. -/
structure MeterReadResult where
  status : String
  message : Option String := none
  results : List (String × String × String) := []
deriving DecidableEq

/-- The attribute access `camera_manager.get_frame(cam_id)` at
`triggers.py` line 830. `CameraManager` (`streaming.py` lines 138-164)
defines only `get_camera`, `add_camera` and `remove_camera`, so in
Python this lookup raises `AttributeError` before any frame is fetched;
the exception is modelled as the error branch. A successful branch
(which no execution can reach) would yield the camera's cached frame. -/
def cameraManagerGetFrameCall (_m : CameraManager) (_cam_id : String) :
    Except String (Option Bytes) :=
  .error "AttributeError: CameraManager object has no attribute get_frame"

/-- `perform_meter_read` (`triggers.py` lines 810-871): select the
configured meters (filtered by `meter_id` when that argument is truthy);
with no meter selected return an explicit error dict; otherwise loop
over the meters, skipping any without a truthy `camera_id`, and for each
remaining meter run the capture-analyse-notify body inside
`try/except Exception` — any exception is logged and the meter is
skipped (lines 868-869) — finally returning status `success` with the
accumulated results. `analyze` stands for the external
`analysis.ai_analyzer.analyze_image` collaborator. -/
def performMeterRead (cfg : Config) (mgr : CameraManager)
    (analyze : Bytes → String → String) (meter_id : Option String) :
    MeterReadResult :=
  let meters := cfg.utility_meters
  let meters :=
    if strTruthy meter_id then
      meters.filter (fun me => me.id == meter_id.getD "")
    else meters
  if meters.isEmpty then
    { status := "error", message := some "No meters found to read" }
  else
    let results := meters.foldl (fun acc meter =>
      if strTruthy meter.camera_id then
        match cameraManagerGetFrameCall mgr (meter.camera_id.getD "") with
        | .error _ => acc
        | .ok none => acc
        | .ok (some frame) =>
          let prompt :=
            meter.analysis_prompt.getD "Read the physical utility meter numbers."
          acc ++ [(meter.id, meter.name, analyze frame prompt)]
      else acc) []
    { status := "success", results := results }

/-! ## General lemmas about the embedded operations -/

theorem iterN_add {α : Type} (f : α → α) (m n : Nat) (x : α) :
    iterN f (m + n) x = iterN f m (iterN f n x) := by
  induction m with
  | zero => simp [iterN, Nat.zero_add]
  | succ k ih => rw [Nat.succ_add]; simp [iterN, ih]

theorem iterN_fixed {α : Type} (f : α → α) (n : Nat) (x : α) (h : f x = x) :
    iterN f n x = x := by
  induction n with
  | zero => rfl
  | succ k ih => simp [iterN, ih, h]

theorem lookupId_eraseId {β : Type} (k : String) (l : List (String × β)) :
    lookupId k (eraseId k l) = none := by
  induction l with
  | nil => rfl
  | cons e rest ih =>
    by_cases h : e.1 = k
    · simp [eraseId, List.filter, h] at ih ⊢; exact ih
    · simp [eraseId, List.filter, h, lookupId] at ih ⊢; exact ih

theorem lookupId_filterNe_append {β : Type} (k : String) (v : β)
    (l : List (String × β)) :
    lookupId k (l.filter (fun e => decide (e.1 ≠ k)) ++ [(k, v)]) = some v := by
  induction l with
  | nil => simp [lookupId]
  | cons e rest ih =>
    by_cases h : e.1 = k
    · simpa [List.filter, h] using ih
    · simpa [List.filter, h, lookupId] using ih

/-! ## C2: the capture worker stops after the error budget -/

theorem failOpen_traj (n : Nat) (h : n ≤ 50) :
    iterN (failOpenStep 50) n ⟨true, 0, 0⟩ = ⟨true, n, n⟩ := by
  induction n with
  | zero => rfl
  | succ k ih =>
    rw [iterN, ih (Nat.le_of_succ_le h)]
    simp [failOpenStep]
    omega

/-- Claim C2: for a `VideoSource` whose source fails every open attempt,
the `Camera._update` worker (in the loop regime modelled by
`failOpenStep`) runs exactly 51 iterations: the consecutive-error
counter is incremented before each attempt, open attempts are issued
while the counter is at 1..50, and on the iteration that drives the
counter to 51 (strictly above `max_errors = 50`, the budget set by
`Camera.__init__`) the worker sets `running` to false and breaks,
having issued exactly 50 open attempts; every later iteration leaves
the exited state unchanged, so no further open attempt is ever issued. -/
theorem failOpen_stops_after_budget (src : PySource) (nm : String) (n : Nat) :
    (mkCamera src nm).max_errors = 50 ∧
    iterN (failOpenStep (mkCamera src nm).max_errors) 51
      ⟨(mkCamera src nm).running, (mkCamera src nm).error_count, 0⟩ =
      ⟨false, 51, 50⟩ ∧
    iterN (failOpenStep (mkCamera src nm).max_errors) (n + 51)
      ⟨(mkCamera src nm).running, (mkCamera src nm).error_count, 0⟩ =
      ⟨false, 51, 50⟩ := by
  have h51 : iterN (failOpenStep 50) 51 ⟨true, 0, 0⟩ = ⟨false, 51, 50⟩ := by
    rw [show (51 : Nat) = 1 + 50 from rfl, iterN_add, failOpen_traj 50 (by omega)]
    rfl
  refine ⟨rfl, h51, ?_⟩
  show iterN (failOpenStep 50) (n + 51) ⟨true, 0, 0⟩ = ⟨false, 51, 50⟩
  rw [iterN_add, h51]
  exact iterN_fixed _ n _ rfl

/-! ## C9: the MJPEG generator self-terminates on an empty camera -/

theorem streamEmpty_traj (n : Nat) (h : n ≤ 600) :
    iterN streamEmptyStep n ⟨false, 0, 0, 0⟩ = ⟨false, n, n, 0⟩ := by
  induction n with
  | zero => rfl
  | succ k ih =>
    rw [iterN, ih (Nat.le_of_succ_le h)]
    simp [streamEmptyStep]
    omega

/-- Claim C9: against a camera whose `get_frame` returns `None` on every
poll, the `generate_frames` loop (modelled by `streamEmptyStep`)
increments the consecutive-empty counter on each poll and breaks on the
poll that drives the counter to 601 (strictly above `max_empty = 600`):
after 601 polls the loop has stopped having yielded no frame chunk, and
every later iteration leaves the stopped state unchanged. -/
theorem generateFrames_terminates_on_empty (n : Nat) :
    iterN streamEmptyStep 601 ⟨false, 0, 0, 0⟩ = ⟨true, 601, 601, 0⟩ ∧
    iterN streamEmptyStep (n + 601) ⟨false, 0, 0, 0⟩ = ⟨true, 601, 601, 0⟩ := by
  have h601 : iterN streamEmptyStep 601 ⟨false, 0, 0, 0⟩ = ⟨true, 601, 601, 0⟩ := by
    rw [show (601 : Nat) = 1 + 600 from rfl, iterN_add, streamEmpty_traj 600 (by omega)]
    rfl
  refine ⟨h601, ?_⟩
  rw [iterN_add, h601]
  exact iterN_fixed _ n _ rfl

/-! ## C4: `get_frame` records no consumer-request timestamp -/

/-- A camera whose worker stored a frame at time 3
(`Camera.store_frame 3`), later read by a consumer. -/
def cam4 : Camera := Camera.store_frame 3 [255, 216] (mkCamera (.int 0) "Camera")

/-- Claim C4, refuted at a concrete input: take the camera `cam4` (whose
only timestamp field, `last_update_time`, holds 3) and a `get_frame`
call made at wall-clock time 7. `Camera.get_frame` leaves the camera
state unchanged, so after the call the timestamp field still holds 3,
which is not the time of the call — the claim that every frame read
records "last requested at now" on the camera is false. -/
theorem getFrame_no_request_timestamp_cex :
    (Camera.get_frame cam4).2 = cam4 ∧
    (Camera.get_frame cam4).2.last_update_time = 3 ∧
    ¬ ((Camera.get_frame cam4).2.last_update_time = 7) := by
  refine ⟨rfl, rfl, by decide⟩

/-- Claim C4 as amended: `Camera.get_frame` returns the cached encoded
frame and mutates nothing — the `Camera` class has no
last-consumer-request field, and its only timestamp,
`last_update_time`, is written by the capture worker when it stores a
newly encoded frame (`Camera.store_frame`), not by the reader. -/
theorem getFrame_records_nothing (c : Camera) (now : Nat) (jpeg : Bytes) :
    Camera.get_frame c = (c.last_encoded_frame, c) ∧
    (Camera.store_frame now jpeg c).last_update_time = now ∧
    (Camera.store_frame now jpeg c).last_encoded_frame = some jpeg :=
  ⟨rfl, rfl, rfl⟩

/-! ## C10: numeric-string sources are coerced to device indices -/

/-- Claim C10: `Camera.__init__` coerces a source descriptor given as a
string consisting only of digits to the corresponding integer device
index before anything else, so a camera constructed from the numeric
string is in exactly the same state as one constructed from the
integer. -/
theorem digit_string_source_coerced (s : String) (nm : String)
    (h : pyIsDigit s = true) :
    mkCamera (.str s) nm = mkCamera (.int (pyIntOfDigits s)) nm ∧
    (mkCamera (.str s) nm).source = .int (pyIntOfDigits s) := by
  constructor <;> simp [mkCamera, coerceSource, h]

/-- Witness for C10 at the concrete source string `"0"`. -/
theorem digit_string_source_coerced_witness :
    pyIsDigit "0" = true ∧
    mkCamera (.str "0") "Camera" = mkCamera (.int (pyIntOfDigits "0")) "Camera" :=
  ⟨by decide, (digit_string_source_coerced "0" "Camera" (by decide)).1⟩

/-! ## C3: `sync_schedules` does not uninstall jobs of removed subjects -/

/-- A configuration with one enabled camera `cam1` scheduled every two
hours. -/
def cfg3a : Config :=
  { cameras := [("cam1",
      { schedule_enabled := true, schedule_type := some "interval",
        schedule_interval_hrs := some 2 })] }

/-- The configuration after `cam1` has been removed (as `delete_camera`
in `routers/api.py` lines 793-802 leaves it before calling
`sync_schedules`). -/
def cfg3b : Config := { cameras := [] }

/-- The configuration with `cam1` still present but disabled. -/
def cfg3c : Config :=
  { cameras := [("cam1",
      { schedule_enabled := true, schedule_type := some "interval",
        schedule_interval_hrs := some 2, enabled := some false })] }

/-- Claim C3, checked at a concrete input: syncing `cfg3a` installs the
job `analysis_cam1`; after the camera is removed from the configuration
(`cfg3b`), a full resync leaves `analysis_cam1` installed, because
`sync_schedules` iterates only the subjects present in the
configuration and never uninstalls a stale job id — contradicting the
claim for removed subjects. For a subject that is merely disabled
(`cfg3c`) the resync does remove the job, so the failure is specific to
removal. -/
theorem syncSchedules_leaves_removed_camera_job :
    getJob (syncSchedules cfg3a []) "analysis_cam1" = some (.interval 2 0) ∧
    getJob (syncSchedules cfg3b (syncSchedules cfg3a [])) "analysis_cam1" =
      some (.interval 2 0) ∧
    getJob (syncSchedules cfg3c (syncSchedules cfg3a [])) "analysis_cam1" = none := by
  decide

/-! ## C5: `perform_meter_read` silently drops meter invocations -/

/-- A configuration with one utility meter `m1` bound to camera
`cam1`. -/
def cfg5 : Config :=
  { utility_meters :=
      [{ id := "m1", name := "Gas",
         camera_id := some "cam1", schedule_enabled := true,
         schedule_type := some "interval", schedule_interval_hrs := some 1 }] }

/-- A registry in which `cam1` exists (freshly added). -/
def mgr5 : CameraManager :=
  ((⟨[]⟩ : CameraManager).add_camera "cam1" (.int 0) none).1

/-- Claim C5, checked at a concrete input: `perform_meter_read("m1")`
for the configured meter `m1`, whose `camera_id` refers to a camera
that is present in the registry, returns status `"success"` with an
empty result list and no error message — the meter's invocation is
silently dropped. The per-meter body fails on its first statement
(`camera_manager.get_frame` does not exist on `CameraManager`, modelled
by `cameraManagerGetFrameCall`), the exception is swallowed by the
per-meter `except` clause, and the function still reports success. -/
theorem performMeterRead_drops_meter_invocation :
    performMeterRead cfg5 mgr5 (fun _ _ => "42") (some "m1") =
      { status := "success", message := none, results := [] } ∧
    CameraManager.get_camera mgr5 "cam1" = some (mkCamera (.int 0) "cam1") := by
  decide

/-! ## C7: zero/absent interval falls back to one hour -/

theorem getJob_addJob_removeJob (t : JobTable) (k : String) (tr : Trigger) :
    getJob (addJob (removeJob t k) k tr) k = some tr :=
  lookupId_filterNe_append k tr t

/-- Claim C7: when `sync_schedules._add_schedule_job` installs an
interval-type schedule for an enabled subject whose configured hours
and minutes are both zero or absent, the installed job is an interval
job of one hour and zero minutes — registered, and not with a
fire-every-tick zero period. -/
theorem zero_interval_defaults_to_hourly (table : JobTable) (job_id : String)
    (item : SchedCfg)
    (hen : item.schedule_enabled = true)
    (hty : item.schedule_type = none ∨ item.schedule_type = some "interval")
    (hh : item.schedule_interval_hrs.getD 0 = 0)
    (hm : item.schedule_interval_mins.getD 0 = 0) :
    getJob (addScheduleJob table job_id item) job_id = some (.interval 1 0) := by
  have hhrs : item.schedule_interval_hrs = none ∨
      item.schedule_interval_hrs = some 0 := by
    cases hv : item.schedule_interval_hrs with
    | none => exact Or.inl rfl
    | some v => rw [hv] at hh; simp [Option.getD] at hh; simp [hh]
  have hmins : item.schedule_interval_mins = none ∨
      item.schedule_interval_mins = some 0 := by
    cases hv : item.schedule_interval_mins with
    | none => exact Or.inl rfl
    | some v => rw [hv] at hm; simp [Option.getD] at hm; simp [hm]
  rcases hty with h | h <;> rcases hhrs with h1 | h1 <;> rcases hmins with h2 | h2 <;>
    simp only [addScheduleJob, hen, h, h1, h2, Option.getD, Bool.not_true,
      Bool.false_eq_true, if_false, reduceIte] <;>
    exact getJob_addJob_removeJob table job_id (.interval 1 0)

/-- Witness for C7: an enabled interval subject with both interval keys
absent gets the one-hour default. -/
theorem zero_interval_defaults_to_hourly_witness :
    ({ schedule_enabled := true } : SchedCfg).schedule_enabled = true ∧
    getJob (addScheduleJob [] "analysis_x" { schedule_enabled := true })
      "analysis_x" = some (.interval 1 0) :=
  ⟨rfl, zero_interval_defaults_to_hourly [] "analysis_x"
    { schedule_enabled := true } rfl (Or.inl rfl) rfl rfl⟩

/-! ## C8: no frame stored yields `None` and a 503 snapshot -/

/-- Claim C8: a freshly constructed camera has no cached frame; and for
any registry entry whose camera has no cached frame, `get_frame`
returns `None` and the `/snapshot` endpoint answers with an explicit
503 "Frame capture failed" rather than image bytes. -/
theorem no_frame_yields_none_and_503 :
    (∀ (src : PySource) (nm : String),
      (mkCamera src nm).last_encoded_frame = none) ∧
    ∀ (m : CameraManager) (id : String) (cam : Camera),
      CameraManager.get_camera m id = some cam →
      cam.last_encoded_frame = none →
      (cam.get_frame).1 = none ∧
      get_snapshot m id = .httpError 503 "Frame capture failed" := by
  refine ⟨fun src nm => rfl, fun m id cam hc hn => ⟨hn, ?_⟩⟩
  simp [get_snapshot, hc, Camera.get_frame, hn]

/-- Witness for C8: a registry holding one freshly added camera answers
503 on its snapshot. -/
theorem no_frame_yields_none_and_503_witness :
    get_snapshot ⟨[("front", mkCamera (.int 0) "front")]⟩ "front" =
      .httpError 503 "Frame capture failed" :=
  (no_frame_yields_none_and_503.2 ⟨[("front", mkCamera (.int 0) "front")]⟩
    "front" (mkCamera (.int 0) "front") (by decide) rfl).2

/-! ## C6: `remove_camera` stops, deletes, and reports presence -/

/-- Claim C6: a `remove_camera(id)` call on a registry that holds a
handle for `id` stops that handle (its `running` flag becomes false as
it moves to the discarded history), deletes `id` from the map and
returns true; on a registry without `id` it returns false and leaves
the state unchanged; and in either case `get_camera(id)` on the
resulting registry returns `None`. -/
theorem removeCamera_spec (s : TraceState) (id : String) :
    (lookupId id s.mgr.cameras = none →
      removeCameraStep s id = (s, false)) ∧
    (∀ old, lookupId id s.mgr.cameras = some old →
      (removeCameraStep s id).2 = true ∧
      (removeCameraStep s id).1.mgr.cameras = eraseId id s.mgr.cameras ∧
      (removeCameraStep s id).1.discarded = (id, Camera.stop old) :: s.discarded ∧
      (Camera.stop old).running = false) ∧
    CameraManager.get_camera (removeCameraStep s id).1.mgr id = none := by
  cases h : lookupId id s.mgr.cameras with
  | none =>
    refine ⟨?_, ?_, ?_⟩
    · intro _
      simp [removeCameraStep, h]
    · intro old hold
      exact absurd hold (by simp)
    · simp [removeCameraStep, h, CameraManager.get_camera]
  | some old0 =>
    refine ⟨?_, ?_, ?_⟩
    · intro hn
      exact absurd hn (by simp)
    · intro old hold
      have hoo : old0 = old := by
        injection hold
      subst hoo
      refine ⟨?_, ?_, ?_, rfl⟩ <;>
        simp [removeCameraStep, h, CameraManager.remove_camera]
    · simp [removeCameraStep, h, CameraManager.remove_camera,
        CameraManager.get_camera]
      exact lookupId_eraseId id s.mgr.cameras

/-- Witness for C6 at a registry holding exactly the camera `cam1`:
removal reports true and a subsequent lookup misses. -/
theorem removeCamera_spec_witness :
    (removeCameraStep ⟨⟨[("cam1", mkCamera (.int 0) "cam1")]⟩, []⟩ "cam1").2
      = true ∧
    CameraManager.get_camera
      ((removeCameraStep ⟨⟨[("cam1", mkCamera (.int 0) "cam1")]⟩, []⟩
        "cam1").1).mgr "cam1" = none :=
  ⟨((removeCamera_spec ⟨⟨[("cam1", mkCamera (.int 0) "cam1")]⟩, []⟩ "cam1").2.1
      (mkCamera (.int 0) "cam1") (by decide)).1,
   (removeCamera_spec ⟨⟨[("cam1", mkCamera (.int 0) "cam1")]⟩, []⟩ "cam1").2.2⟩

/-! ## C1: at most one live handle per camera id -/

theorem liveFor_eq_zero_of_not_mem (id : String) (l : List (String × Camera))
    (h : id ∉ keysOf l) : liveFor id l = 0 := by
  induction l with
  | nil => rfl
  | cons e rest ih =>
    rw [keysOf, List.map_cons, List.mem_cons] at h
    push_neg at h
    simp only [liveFor]
    rw [if_neg (fun hc => h.1 hc.1.symm), ih h.2]

theorem liveFor_le_one_of_nodup (id : String) (l : List (String × Camera))
    (h : (keysOf l).Nodup) : liveFor id l ≤ 1 := by
  induction l with
  | nil => simp [liveFor]
  | cons e rest ih =>
    rw [keysOf, List.map_cons, List.nodup_cons] at h
    simp only [liveFor]
    by_cases he : e.1 = id
    · have hz : liveFor id rest = 0 :=
        liveFor_eq_zero_of_not_mem id rest (by rw [← he]; exact h.1)
      rw [hz]
      split <;> omega
    · rw [if_neg (fun hc => he hc.1)]
      have := ih h.2
      omega

theorem liveFor_eq_zero_of_stopped (id : String) (l : List (String × Camera))
    (h : ∀ e ∈ l, e.2.running = false) : liveFor id l = 0 := by
  induction l with
  | nil => rfl
  | cons e rest ih =>
    have h1 : e.2.running = false := h e (by simp)
    have h2 : ∀ x ∈ rest, x.2.running = false := fun x hx => h x (by simp [hx])
    simp only [liveFor]
    rw [if_neg (fun hc => by rw [hc.2] at h1; cases h1), ih h2]

theorem mem_keysOf_insertId {β : Type} (a k : String) (v : β)
    (l : List (String × β)) :
    a ∈ keysOf (insertId k v l) ↔ a = k ∨ a ∈ keysOf l := by
  induction l with
  | nil => simp [insertId, keysOf]
  | cons e rest ih =>
    by_cases h : e.1 = k
    · subst h
      simp [insertId, keysOf]
    · simp only [insertId, if_neg h, keysOf, List.map_cons, List.mem_cons]
      simp only [keysOf] at ih
      rw [ih]
      tauto

theorem nodup_keysOf_insertId {β : Type} (k : String) (v : β)
    (l : List (String × β)) (h : (keysOf l).Nodup) :
    (keysOf (insertId k v l)).Nodup := by
  induction l with
  | nil => simp [insertId, keysOf]
  | cons e rest ih =>
    rw [keysOf, List.map_cons, List.nodup_cons] at h
    by_cases he : e.1 = k
    · simp only [insertId, if_pos he, keysOf, List.map_cons, List.nodup_cons]
      exact ⟨by rw [← he]; exact h.1, h.2⟩
    · simp only [insertId, if_neg he, keysOf, List.map_cons, List.nodup_cons]
      refine ⟨?_, ih h.2⟩
      have hm := mem_keysOf_insertId e.1 k v rest
      simp only [keysOf] at hm
      rw [hm]
      push_neg
      exact ⟨he, h.1⟩

/-- The registry invariant maintained across `add_camera` calls: the
map's keys are unique (it models a Python dict) and every handle ever
discarded from the map has been stopped. -/
def RegInv (s : TraceState) : Prop :=
  (keysOf s.mgr.cameras).Nodup ∧ ∀ e ∈ s.discarded, e.2.running = false

theorem addCameraStep_cameras (s : TraceState) (id : String) (src : PySource)
    (nm : Option String) :
    (addCameraStep s id src nm).mgr.cameras
      = insertId id (mkCamera src (nm.getD id)) s.mgr.cameras := by
  unfold addCameraStep CameraManager.add_camera
  cases lookupId id s.mgr.cameras <;> rfl

theorem addCameraStep_discarded_stopped (s : TraceState) (id : String)
    (src : PySource) (nm : Option String)
    (h2 : ∀ e ∈ s.discarded, e.2.running = false) :
    ∀ e ∈ (addCameraStep s id src nm).discarded, e.2.running = false := by
  unfold addCameraStep
  cases lookupId id s.mgr.cameras with
  | none => exact h2
  | some old =>
    intro e he
    rcases List.mem_cons.mp he with h | h
    · rw [h]
      rfl
    · exact h2 e h

theorem addCameraStep_inv (s : TraceState) (id : String) (src : PySource)
    (nm : Option String) (h : RegInv s) : RegInv (addCameraStep s id src nm) := by
  refine ⟨?_, addCameraStep_discarded_stopped s id src nm h.2⟩
  rw [addCameraStep_cameras]
  exact nodup_keysOf_insertId _ _ _ h.1

theorem runAdds_inv_aux (calls : List AddCall) (s : TraceState)
    (h : RegInv s) :
    RegInv (calls.foldl (fun s c => addCameraStep s c.id c.src c.nm) s) := by
  induction calls generalizing s with
  | nil => exact h
  | cons c rest ih =>
    exact ih _ (addCameraStep_inv s c.id c.src c.nm h)

theorem runAdds_inv (calls : List AddCall) : RegInv (runAdds calls) :=
  runAdds_inv_aux calls ⟨⟨[]⟩, []⟩ ⟨List.nodup_nil, by simp⟩

/-- Claim C1: after any sequence of `add_camera` calls starting from the
empty registry, every camera id has at most one live handle — counting
both the handles currently in the registry map and every handle the
registry has ever discarded, since an `add_camera` on an existing id
stops the old handle before overwriting its slot — and the registry map
never holds two entries for one id. -/
theorem addCamera_at_most_one_live_handle (calls : List AddCall) (id : String) :
    liveCount id (runAdds calls) ≤ 1 ∧
    (keysOf (runAdds calls).mgr.cameras).Nodup := by
  have h := runAdds_inv calls
  refine ⟨?_, h.1⟩
  rw [liveCount]
  have h1 := liveFor_le_one_of_nodup id (runAdds calls).mgr.cameras h.1
  have h2 := liveFor_eq_zero_of_stopped id (runAdds calls).discarded h.2
  omega
